import Mathlib

/-!
Shallow embedding of the Schuldenkompass chat widget
(`static/js/script.js`, the repository's only source file).

The script manages a message list (DOM children of `.messages`), a mutable
`conversationId` (initially `null`), an input field, and issues one `fetch`
per submitted message.  We embed:

* the message-list nodes (`Node`),
* the page state (`ChatState`),
* the handlers as emitters of primitive effect events (`Event`), applied to
  the state in the order the script performs them,
* a system-level action semantics (`PageAction`, `SysState`) that tracks the
  number of in-flight exchanges, so that interleavings of submissions and
  response arrivals can be stated.
-/

/-- A node appended to the `.messages` container: a user message div
(`message user`), a bot message div (`message bot`), or the typing-indicator
div (id `typing-indicator`). -/
inductive Node where
  | userMsg (content : String)
  | botMsg (content : String)
  | typing
deriving DecidableEq, Repr

/-- Whether a node is the typing-indicator div (lines 31-42 of the script
give it the fixed id `typing-indicator`). -/
def Node.isTyping : Node → Bool
  | .typing => true
  | _ => false

/-- Whether a node is a user-authored message div. -/
def Node.isUserMsg : Node → Bool
  | .userMsg _ => true
  | _ => false

/-- The request issued by `sendMessage` (script lines 62-71):
`fetch('/api/chat', {method: 'POST', headers: {'Content-Type':
'application/json'}, body: JSON.stringify({message, conversation_id})})`.
The body has exactly the two fields `message` and `conversation_id`. -/
structure ChatRequest where
  url : String
  method : String
  contentType : String
  message : String
  conversation_id : Option String
deriving DecidableEq, Repr

/-- The parsed JSON response body.  Absent fields (JavaScript `undefined`)
and `null` are both modelled as `none`. -/
structure ResponseData where
  status : Option String
  conversation_id : Option String
  response : Option String
  error : Option String
deriving DecidableEq, Repr

/-- What the transport returns for one exchange: the `fetch` promise
rejects (`transportError err` carries the rejection's message), the body is
not parseable so `response.json()` throws (`parseError`), or a body parses
(`parsed`).  `httpStatus` is the HTTP status code of the response; the
script never reads it. -/
inductive ServerResponse where
  | transportError (err : String)
  | parseError (httpStatus : Nat) (err : String)
  | parsed (httpStatus : Nat) (data : ResponseData)
deriving DecidableEq, Repr

/-- Primitive effects performed by the handlers, in program order. -/
inductive Event where
  | appendUser (content : String)
  | appendBot (content : String)
  | showTyping
  | hideTyping
  | clearInput
  | sendRequest (r : ChatRequest)
  | setConversationId (cid : Option String)
  | logError (msg : String)
deriving DecidableEq, Repr

/-- Whether an event mutates the message list (append/remove a child of
`.messages`). -/
def Event.isMessageListEvent : Event → Bool
  | .appendUser _ => true
  | .appendBot _ => true
  | .showTyping => true
  | .hideTyping => true
  | _ => false

/-- The fixed error text rendered on any failure (script line 85). -/
def errorMessage : String :=
  "Es ist ein Fehler aufgetreten. Bitte versuche es später noch einmal."

/-- JavaScript `a || b` for an optional string `a`: `undefined`/`null` and
the empty string are falsy.  Used for `data.error || 'Unknown error
occurred'` (line 80). -/
def jsOrString : Option String → String → String
  | some s, d => if s = "" then d else s
  | none, d => d

/-- Assigning a possibly-missing value to `textContent`: `undefined` and
`null` both render as the empty text. -/
def jsTextContent : Option String → String
  | some s => s
  | none => ""

/-- Characters removed by JavaScript `String.prototype.trim`: ASCII
whitespace plus the common Unicode whitespace code points. -/
def isJsWhitespace (c : Char) : Bool :=
  c = ' ' || c = '\t' || c = '\n' || c = '\r' || c = '\x0b' || c = '\x0c' ||
    c = ' ' || c = ' ' || c = ' ' || c = '﻿'

/-- JavaScript `s.trim()`: strip leading and trailing whitespace. -/
def jsTrim (s : String) : String :=
  ⟨((s.toList.dropWhile isJsWhitespace).reverse.dropWhile isJsWhitespace).reverse⟩

/-- Script lines 17-23, `addMessage(content, isUser)`: append a message div
to the message list. -/
def addMessage (msgs : List Node) (content : String) (isUser : Bool) : List Node :=
  msgs ++ [if isUser then .userMsg content else .botMsg content]

/-- Script lines 26-28, `addBotMessage(content)`. -/
def addBotMessage (msgs : List Node) (content : String) : List Node :=
  addMessage msgs content false

/-- Script lines 31-42, `showTypingIndicator()`: unconditionally append a
fresh typing-indicator div. -/
def showTypingIndicator (msgs : List Node) : List Node :=
  msgs ++ [.typing]

/-- Script lines 45-50, `hideTypingIndicator()`:
`document.getElementById('typing-indicator')` returns the first node in
document order carrying that id (nodes are only ever appended, so document
order is list order); if present it is removed, otherwise nothing
happens. -/
def hideTypingIndicator : List Node → List Node
  | [] => []
  | n :: rest => if n.isTyping then rest else n :: hideTypingIndicator rest

/-- The page state: the stored conversation id (line 8, initially `null`),
the message list, the input field's value, the log of issued requests and
the `console.error` log. -/
structure ChatState where
  conversationId : Option String
  messages : List Node
  inputValue : String
  sentRequests : List ChatRequest
  log : List String
deriving DecidableEq, Repr

/-- Apply one primitive effect to the state. -/
def applyEvent (s : ChatState) : Event → ChatState
  | .appendUser c => { s with messages := addMessage s.messages c true }
  | .appendBot c => { s with messages := addBotMessage s.messages c }
  | .showTyping => { s with messages := showTypingIndicator s.messages }
  | .hideTyping => { s with messages := hideTypingIndicator s.messages }
  | .clearInput => { s with inputValue := "" }
  | .sendRequest r => { s with sentRequests := s.sentRequests ++ [r] }
  | .setConversationId cid => { s with conversationId := cid }
  | .logError m => { s with log := s.log ++ [m] }

/-- Apply a list of effects in order. -/
def applyEvents (s : ChatState) (es : List Event) : ChatState :=
  es.foldl applyEvent s

/-- Script lines 8 and 11-14, `initChat()`: `conversationId = null`, the
greeting rendered as the first bot message (`GREETING` is supplied by the
surrounding page, so it is a parameter here). -/
def initChat (greeting : String) : ChatState :=
  { conversationId := none
    messages := addBotMessage [] greeting
    inputValue := ""
    sentRequests := []
    log := [] }

/-- Effects of the synchronous part of `sendMessage` (script lines 58-71):
show the typing indicator, then dispatch the POST whose body is built from
the message and the `conversationId` read at call time. -/
def sendMessageEvents (message : String) (conversationId : Option String) : List Event :=
  [.showTyping,
   .sendRequest
     { url := "/api/chat"
       method := "POST"
       contentType := "application/json"
       message := message
       conversation_id := conversationId }]

/-- Whether the script treats a settled exchange as a success: exactly the
test `data.status === 'success'` on a parsed body (line 75); a transport
failure or an unparseable body never reaches that test. -/
def isSuccess : ServerResponse → Bool
  | .parsed _ data => data.status = some "success"
  | _ => false

/-- Effects of `sendMessage` once the exchange settles (script lines
73-86).  Success (line 75): store `data.conversation_id`, remove the typing
indicator, render `data.response` as a bot message — in that order.  Any
other parsed status: `throw new Error(data.error || 'Unknown error
occurred')`, which the `catch` logs before removing the indicator and
rendering the fixed error text.  A `fetch` rejection or a `json()` throw
lands in the same `catch`. -/
def responseEvents : ServerResponse → List Event
  | .transportError e => [.logError e, .hideTyping, .appendBot errorMessage]
  | .parseError _ e => [.logError e, .hideTyping, .appendBot errorMessage]
  | .parsed _ data =>
      if data.status = some "success" then
        [.setConversationId data.conversation_id,
         .hideTyping,
         .appendBot (jsTextContent data.response)]
      else
        [.logError (jsOrString data.error "Unknown error occurred"),
         .hideTyping,
         .appendBot errorMessage]

/-- Effects of the form's submit handler (script lines 90-102): trim the
input field's value; if the result is non-empty (truthy), append it as a
user message, clear the field, and start `sendMessage`; otherwise do
nothing. -/
def submitEvents (inputValue : String) (conversationId : Option String) : List Event :=
  let message := jsTrim inputValue
  if message = "" then []
  else .appendUser message :: .clearInput :: sendMessageEvents message conversationId

/-- One run of the submit handler on the current state. -/
def submitHandler (s : ChatState) : ChatState :=
  applyEvents s (submitEvents s.inputValue s.conversationId)

/-- Effects of one whole sequential exchange: the submit handler followed
by the settling of its response. -/
def exchangeTrace (raw : String) (conversationId : Option String)
    (resp : ServerResponse) : List Event :=
  submitEvents raw conversationId ++ responseEvents resp

/-- The three user gestures wired to submission (script lines 90-115):
direct form submission; the send-button click handler, which dispatches one
synthetic `submit` event; and the keypress handler, which on Enter without
shift prevents the key's default and dispatches one synthetic `submit`
event (with shift it does nothing). -/
inductive Gesture where
  | formSubmit
  | buttonClick
  | enterKey (shift : Bool)
deriving DecidableEq, Repr

/-- How many times a gesture fires the submit handler. -/
def gestureSubmitCount : Gesture → Nat
  | .formSubmit => 1
  | .buttonClick => 1
  | .enterKey shift => if shift then 0 else 1

/-- Fire the submit handler `n` times in a row. -/
def iterateSubmit : Nat → ChatState → ChatState
  | 0, s => s
  | n + 1, s => iterateSubmit n (submitHandler s)

/-- Run a gesture: the user has typed `raw` into the input field, then the
gesture fires the submit handler the corresponding number of times. -/
def runGesture (s : ChatState) (raw : String) (g : Gesture) : ChatState :=
  iterateSubmit (gestureSubmitCount g) { s with inputValue := raw }

/-- Number of typing-indicator nodes in the message list. -/
def typingCount (msgs : List Node) : Nat :=
  msgs.countP Node.isTyping

/-- Number of user-message nodes in the message list. -/
def userMsgCount (msgs : List Node) : Nat :=
  msgs.countP Node.isUserMsg

/-- Whether a submission with this raw input dispatches a request. -/
def sendsRequest (raw : String) : Bool :=
  jsTrim raw ≠ ""

/-- System state: the page state plus the number of in-flight exchanges
(requests dispatched whose responses have not settled yet). -/
structure SysState where
  chat : ChatState
  pending : Nat
deriving DecidableEq, Repr

/-- Initial system state: fresh page, no exchange in flight. -/
def initSys (greeting : String) : SysState :=
  { chat := initChat greeting, pending := 0 }

/-- An observable step of the page: the user types `raw` and submits, or
the response of some in-flight exchange settles.  The event loop is
single-threaded, so each step's effects run atomically. -/
inductive PageAction where
  | submit (raw : String)
  | deliver (resp : ServerResponse)
deriving DecidableEq, Repr

/-- Apply one action to the system state. -/
def stepAction (s : SysState) : PageAction → SysState
  | .submit raw =>
      { chat := submitHandler { s.chat with inputValue := raw }
        pending := s.pending + (if sendsRequest raw then 1 else 0) }
  | .deliver resp =>
      { chat := applyEvents s.chat (responseEvents resp)
        pending := s.pending - 1 }

/-- Apply a list of actions in order. -/
def runActions (s : SysState) (as : List PageAction) : SysState :=
  as.foldl stepAction s

/-- An action list is valid from `p` in-flight exchanges when every
`deliver` settles a genuinely in-flight exchange. -/
def validFrom : Nat → List PageAction → Bool
  | _, [] => true
  | p, .submit raw :: rest =>
      validFrom (p + (if sendsRequest raw then 1 else 0)) rest
  | p, .deliver _ :: rest => decide (0 < p) && validFrom (p - 1) rest

/-- Extract the request dispatched by an event, if any. -/
def requestOf : Event → Option ChatRequest
  | .sendRequest r => some r
  | _ => none

/-- Whether an action, if it delivers a parsed success response, carries a
non-null `conversation_id` (as the wire protocol's success schema
prescribes). -/
def goodDeliver : PageAction → Bool
  | .deliver (.parsed _ d) =>
      !(d.status = some "success" && d.conversation_id = none)
  | _ => true

/-! ## Helper lemmas -/

/-- A list all of whose characters satisfy `p` loses everything to
`dropWhile p`. -/
theorem dropWhile_eq_nil_of_all {p : Char → Bool} :
    ∀ l : List Char, l.all p = true → l.dropWhile p = []
  | [], _ => rfl
  | c :: cs, h => by
    simp only [List.all_cons, Bool.and_eq_true] at h
    simp [List.dropWhile_cons, h.1, dropWhile_eq_nil_of_all cs h.2]

/-- Trimming a whitespace-only string yields the empty string. -/
theorem jsTrim_eq_empty_of_all (s : String)
    (h : s.toList.all isJsWhitespace = true) : jsTrim s = "" := by
  unfold jsTrim
  rw [dropWhile_eq_nil_of_all _ h]
  rfl

/-- A submit-handler run never changes the stored conversation id. -/
theorem submitHandler_conversationId (s : ChatState) :
    (submitHandler s).conversationId = s.conversationId := by
  unfold submitHandler submitEvents
  by_cases h : jsTrim s.inputValue = "" <;>
    simp [h, applyEvents, applyEvent, sendMessageEvents]

/-- A submit-handler run on an empty input field is a no-op. -/
theorem submitHandler_empty (s : ChatState) (h : s.inputValue = "") :
    submitHandler s = s := by
  unfold submitHandler submitEvents
  rw [h]
  simp [jsTrim, applyEvents]

/-- What settling a response does to the stored conversation id: a parsed
success stores the response's `conversation_id`; every other outcome leaves
it unchanged. -/
theorem applyEvents_responseEvents_conversationId (s : ChatState)
    (resp : ServerResponse) :
    (applyEvents s (responseEvents resp)).conversationId =
      match resp with
      | .parsed _ d =>
          if d.status = some "success" then d.conversation_id
          else s.conversationId
      | _ => s.conversationId := by
  cases resp with
  | transportError e => simp [responseEvents, applyEvents, applyEvent]
  | parseError hs e => simp [responseEvents, applyEvents, applyEvent]
  | parsed hs d =>
    by_cases h : d.status = some "success" <;>
      simp [responseEvents, h, applyEvents, applyEvent]

/-- Removing the typing indicator decrements the typing-node count. -/
theorem countP_hideTypingIndicator (l : List Node) :
    List.countP Node.isTyping (hideTypingIndicator l) =
      List.countP Node.isTyping l - 1 := by
  induction l with
  | nil => rfl
  | cons n rest ih =>
    by_cases h : n.isTyping = true
    · simp [hideTypingIndicator, List.countP_cons, h]
    · simpa [hideTypingIndicator, List.countP_cons, h] using ih

/-- Removing the typing indicator decrements `typingCount`. -/
theorem typingCount_hideTypingIndicator (l : List Node) :
    typingCount (hideTypingIndicator l) = typingCount l - 1 :=
  countP_hideTypingIndicator l

/-- When no typing indicator is present, `hideTypingIndicator` does
nothing. -/
theorem hideTypingIndicator_of_count_zero (l : List Node)
    (h : typingCount l = 0) : hideTypingIndicator l = l := by
  induction l with
  | nil => rfl
  | cons n rest ih =>
    simp [typingCount, List.countP_cons] at h
    by_cases hn : n.isTyping = true
    · simp [hn] at h
    · simp [hideTypingIndicator, hn,
        ih (by simpa [typingCount, hn] using h)]

/-- A submit-handler run adds one typing node exactly when it dispatches a
request. -/
theorem typingCount_submitHandler (s : ChatState) :
    typingCount (submitHandler s).messages =
      typingCount s.messages + (if sendsRequest s.inputValue then 1 else 0) := by
  unfold submitHandler submitEvents sendsRequest
  by_cases h : jsTrim s.inputValue = "" <;>
    simp [h, applyEvents, applyEvent, sendMessageEvents, typingCount,
      addMessage, showTypingIndicator, List.countP_append, Node.isTyping]

/-- Settling any response removes exactly one typing node (when one is
present). -/
theorem typingCount_responseEvents (s : ChatState) (resp : ServerResponse) :
    typingCount (applyEvents s (responseEvents resp)).messages =
      typingCount s.messages - 1 := by
  cases resp with
  | transportError e =>
    simp [responseEvents, applyEvents, applyEvent, typingCount,
      addBotMessage, addMessage, List.countP_append, Node.isTyping,
      countP_hideTypingIndicator]
  | parseError hs e =>
    simp [responseEvents, applyEvents, applyEvent, typingCount,
      addBotMessage, addMessage, List.countP_append, Node.isTyping,
      countP_hideTypingIndicator]
  | parsed hs d =>
    by_cases h : d.status = some "success" <;>
      simp [responseEvents, h, applyEvents, applyEvent, typingCount,
        addBotMessage, addMessage, List.countP_append, Node.isTyping,
        countP_hideTypingIndicator]

/-! ## Claim theorems -/

/-- C3: for every raw input that is empty or consists only of whitespace,
the submit handler is a no-op — it emits no events, appends no node to the
message list, and sends no HTTP request. -/
theorem whitespace_submit_noop (s : ChatState) (raw : String)
    (h : raw.toList.all isJsWhitespace = true) :
    submitEvents raw s.conversationId = [] ∧
    (submitHandler { s with inputValue := raw }).messages = s.messages ∧
    (submitHandler { s with inputValue := raw }).sentRequests =
      s.sentRequests := by
  have htrim : jsTrim raw = "" := jsTrim_eq_empty_of_all raw h
  refine ⟨?_, ?_, ?_⟩ <;>
    simp [submitHandler, submitEvents, htrim, applyEvents]

/-- Witness for C3 at the concrete whitespace input `"  "`. -/
theorem whitespace_submit_noop_witness :
    submitEvents "  " (initChat "G").conversationId = [] ∧
    (submitHandler { initChat "G" with inputValue := "  " }).messages =
      (initChat "G").messages ∧
    (submitHandler { initChat "G" with inputValue := "  " }).sentRequests =
      (initChat "G").sentRequests :=
  whitespace_submit_noop (initChat "G") "  " (by decide)

/-- C5: a non-empty submission dispatches exactly one request — a POST to
`/api/chat` with Content-Type `application/json` whose body holds exactly
the trimmed message and the stored conversation id; settling a response
dispatches no request; the stored id starts as `null` and is changed by no
non-success response. -/
theorem exchange_single_post_request (raw : String) (cid : Option String)
    (g : String) (h : jsTrim raw ≠ "") :
    (submitEvents raw cid).filterMap requestOf =
      [{ url := "/api/chat", method := "POST",
         contentType := "application/json",
         message := jsTrim raw, conversation_id := cid }] ∧
    (∀ resp : ServerResponse,
      (responseEvents resp).filterMap requestOf = []) ∧
    (initChat g).conversationId = none ∧
    (∀ (s : ChatState) (resp : ServerResponse), isSuccess resp = false →
      (applyEvents s (responseEvents resp)).conversationId =
        s.conversationId) := by
  refine ⟨?_, ?_, rfl, ?_⟩
  · simp [submitEvents, h, sendMessageEvents, requestOf]
  · intro resp
    cases resp with
    | transportError e => simp [responseEvents, requestOf]
    | parseError hs e => simp [responseEvents, requestOf]
    | parsed hs d =>
      by_cases hd : d.status = some "success" <;>
        simp [responseEvents, hd, requestOf]
  · intro s resp hfail
    rw [applyEvents_responseEvents_conversationId]
    cases resp with
    | transportError e => rfl
    | parseError hs e => rfl
    | parsed hs d =>
      simp [isSuccess] at hfail
      simp [hfail]

/-- Witness for C5 at the concrete input `" Hi "`. -/
theorem exchange_single_post_request_witness :
    (submitEvents " Hi " (some "abc123")).filterMap requestOf =
      [{ url := "/api/chat", method := "POST",
         contentType := "application/json",
         message := jsTrim " Hi ", conversation_id := some "abc123" }] :=
  (exchange_single_post_request " Hi " (some "abc123") "G" (by decide)).1

/-- C9: the handling of a parsed response is independent of the HTTP status
code, and success is exactly the condition that the body's `status` field
equals `"success"`. -/
theorem http_status_never_inspected (hs hs' : Nat) (d : ResponseData) :
    responseEvents (.parsed hs d) = responseEvents (.parsed hs' d) ∧
    isSuccess (.parsed hs d) = decide (d.status = some "success") :=
  ⟨rfl, rfl⟩

/-- C1: on a parsed response whose `status` is the success marker, the
handler's effects are, in order: store the response's `conversation_id`,
remove the typing indicator, render the response text as a bot message;
afterwards the stored id equals the response's `conversation_id`, and the
next non-empty submission's request body carries it. -/
theorem exchange_success_updates_then_hides_then_renders
    (st : ChatState) (hs : Nat) (d : ResponseData) (r : String)
    (raw : String) (hstat : d.status = some "success")
    (hresp : d.response = some r) (hraw : jsTrim raw ≠ "") :
    responseEvents (.parsed hs d) =
      [.setConversationId d.conversation_id, .hideTyping, .appendBot r] ∧
    (applyEvents st (responseEvents (.parsed hs d))).conversationId =
      d.conversation_id ∧
    (submitHandler
        { applyEvents st (responseEvents (.parsed hs d)) with
            inputValue := raw }).sentRequests =
      (applyEvents st (responseEvents (.parsed hs d))).sentRequests ++
        [{ url := "/api/chat", method := "POST",
           contentType := "application/json",
           message := jsTrim raw,
           conversation_id := d.conversation_id }] := by
  have hev : responseEvents (.parsed hs d) =
      [.setConversationId d.conversation_id, .hideTyping, .appendBot r] := by
    simp [responseEvents, hstat, hresp, jsTextContent]
  have hcid :
      (applyEvents st (responseEvents (.parsed hs d))).conversationId =
        d.conversation_id := by
    rw [applyEvents_responseEvents_conversationId]
    simp [hstat]
  refine ⟨hev, hcid, ?_⟩
  have hcid' : (List.foldl applyEvent st
      (responseEvents (.parsed hs d))).conversationId =
        d.conversation_id := hcid
  simp [submitHandler, submitEvents, hraw, sendMessageEvents,
    applyEvents, applyEvent, hcid']

/-- Witness for C1 at the spec's concrete success response
`{status: success, conversation_id: "abc123", response: "Hallo!"}` and the
follow-up submission `"Hi"`. -/
theorem exchange_success_updates_then_hides_then_renders_witness :
    responseEvents
        (.parsed 200 ⟨some "success", some "abc123", some "Hallo!", none⟩) =
      [.setConversationId (some "abc123"), .hideTyping,
       .appendBot "Hallo!"] ∧
    (applyEvents (initChat "G")
        (responseEvents
          (.parsed 200
            ⟨some "success", some "abc123", some "Hallo!", none⟩))).conversationId
      = some "abc123" :=
  let t := exchange_success_updates_then_hides_then_renders
    (initChat "G") 200 ⟨some "success", some "abc123", some "Hallo!", none⟩
    "Hallo!" "Hi" rfl rfl (by decide)
  ⟨t.1, t.2.1⟩

/-- C2: on any failure — non-success parsed status, transport rejection, or
unparseable body — the only message-list effects are removing the typing
indicator and rendering the one fixed error text as a bot message,
identically for every cause; for a parsed failure the server's error text
appears only in the diagnostic log event. -/
theorem failure_renders_fixed_error_only (resp : ServerResponse)
    (h : isSuccess resp = false) :
    (responseEvents resp).filter Event.isMessageListEvent =
      [.hideTyping, .appendBot errorMessage] ∧
    (∀ hs d, resp = .parsed hs d →
      responseEvents resp =
        [.logError (jsOrString d.error "Unknown error occurred"),
         .hideTyping, .appendBot errorMessage]) := by
  cases resp with
  | transportError e =>
    exact ⟨by simp [responseEvents, Event.isMessageListEvent],
      fun hs d heq => by cases heq⟩
  | parseError hs0 e =>
    exact ⟨by simp [responseEvents, Event.isMessageListEvent],
      fun hs d heq => by cases heq⟩
  | parsed hs0 d0 =>
    simp [isSuccess] at h
    refine ⟨by simp [responseEvents, h, Event.isMessageListEvent], ?_⟩
    intro hs d heq
    cases heq
    simp [responseEvents, h]

/-- Witness for C2 at the spec's concrete failure response
`{status: "error", error: "boom"}`. -/
theorem failure_renders_fixed_error_only_witness :
    (responseEvents
        (.parsed 200 ⟨some "error", none, none, some "boom"⟩)).filter
        Event.isMessageListEvent =
      [.hideTyping, .appendBot errorMessage] :=
  (failure_renders_fixed_error_only
    (.parsed 200 ⟨some "error", none, none, some "boom"⟩) (by decide)).1

/-- C4: a sequential exchange's trace renders the user message first, then
shows the typing indicator, then — with no message-list effect in between —
removes the indicator and immediately renders either the bot reply or the
error message. -/
theorem submission_render_order (raw : String) (cid : Option String)
    (resp : ServerResponse) (h : jsTrim raw ≠ "") :
    ∃ mid last,
      exchangeTrace raw cid resp =
        .appendUser (jsTrim raw) :: .clearInput :: .showTyping :: mid ++
          [.hideTyping, .appendBot last] ∧
      mid.all (fun e => ! e.isMessageListEvent) = true := by
  unfold exchangeTrace submitEvents
  rw [if_neg h]
  cases resp with
  | transportError e =>
    exact ⟨[.sendRequest
        { url := "/api/chat", method := "POST",
          contentType := "application/json",
          message := jsTrim raw, conversation_id := cid },
      .logError e], errorMessage,
      by simp [sendMessageEvents, responseEvents],
      by simp [Event.isMessageListEvent]⟩
  | parseError hs e =>
    exact ⟨[.sendRequest
        { url := "/api/chat", method := "POST",
          contentType := "application/json",
          message := jsTrim raw, conversation_id := cid },
      .logError e], errorMessage,
      by simp [sendMessageEvents, responseEvents],
      by simp [Event.isMessageListEvent]⟩
  | parsed hs d =>
    by_cases hd : d.status = some "success"
    · exact ⟨[.sendRequest
          { url := "/api/chat", method := "POST",
            contentType := "application/json",
            message := jsTrim raw, conversation_id := cid },
        .setConversationId d.conversation_id], jsTextContent d.response,
        by simp [sendMessageEvents, responseEvents, hd],
        by simp [Event.isMessageListEvent]⟩
    · exact ⟨[.sendRequest
          { url := "/api/chat", method := "POST",
            contentType := "application/json",
            message := jsTrim raw, conversation_id := cid },
        .logError (jsOrString d.error "Unknown error occurred")],
        errorMessage,
        by simp [sendMessageEvents, responseEvents, hd],
        by simp [Event.isMessageListEvent]⟩

/-- Witness for C4 at the concrete submission `"Hi"` settling with a
transport failure. -/
theorem submission_render_order_witness :
    ∃ mid last,
      exchangeTrace "Hi" none (.transportError "boom") =
        .appendUser (jsTrim "Hi") :: .clearInput :: .showTyping :: mid ++
          [.hideTyping, .appendBot last] ∧
      mid.all (fun e => ! e.isMessageListEvent) = true :=
  submission_render_order "Hi" none (.transportError "boom") (by decide)

/-- C8: each of the three triggers — direct form submission, send-button
click, and Enter without shift — fires the submit handler exactly once, so
a non-empty input yields exactly one new user message node and exactly one
request; and because the handler clears the field, a second consecutive
handler run from the same gesture would change nothing. -/
theorem gesture_single_submission (s : ChatState) (raw : String)
    (g : Gesture) (h : jsTrim raw ≠ "")
    (hg : g = .formSubmit ∨ g = .buttonClick ∨ g = .enterKey false) :
    userMsgCount (runGesture s raw g).messages =
      userMsgCount s.messages + 1 ∧
    (runGesture s raw g).sentRequests.length =
      s.sentRequests.length + 1 ∧
    submitHandler (submitHandler { s with inputValue := raw }) =
      submitHandler { s with inputValue := raw } := by
  have hone : runGesture s raw g =
      submitHandler { s with inputValue := raw } := by
    rcases hg with rfl | rfl | rfl <;>
      simp [runGesture, gestureSubmitCount, iterateSubmit]
  have hstep :
      (submitHandler { s with inputValue := raw }).messages =
        (s.messages ++ [.userMsg (jsTrim raw)]) ++ [.typing] ∧
      (submitHandler { s with inputValue := raw }).sentRequests =
        s.sentRequests ++
          [{ url := "/api/chat", method := "POST",
             contentType := "application/json",
             message := jsTrim raw, conversation_id := s.conversationId }] ∧
      (submitHandler { s with inputValue := raw }).inputValue = "" := by
    refine ⟨?_, ?_, ?_⟩ <;>
      simp [submitHandler, submitEvents, h, sendMessageEvents,
        applyEvents, applyEvent, addMessage, showTypingIndicator]
  refine ⟨?_, ?_, ?_⟩
  · rw [hone, hstep.1]
    simp [userMsgCount, List.countP_append, Node.isUserMsg]
  · rw [hone, hstep.2.1]
    simp
  · exact submitHandler_empty _ hstep.2.2

/-- Witness for C8 at the concrete input `"Hi"` triggered by a send-button
click. -/
theorem gesture_single_submission_witness :
    userMsgCount (runGesture (initChat "G") "Hi" .buttonClick).messages =
      userMsgCount (initChat "G").messages + 1 ∧
    (runGesture (initChat "G") "Hi" .buttonClick).sentRequests.length =
      (initChat "G").sentRequests.length + 1 :=
  ⟨(gesture_single_submission (initChat "G") "Hi" .buttonClick (by decide)
      (Or.inr (Or.inl rfl))).1,
   (gesture_single_submission (initChat "G") "Hi" .buttonClick (by decide)
      (Or.inr (Or.inl rfl))).2.1⟩

/-- C6 counterexample: the stored conversation id is set to `"abc123"` by a
success response, and a later parsed success response whose
`conversation_id` is null resets the stored id to null — so "once non-null,
never null again for every sequence of server responses" fails. -/
theorem conversationId_cleared_by_null_success :
    (applyEvents (initChat "G")
        (responseEvents
          (.parsed 200
            ⟨some "success", some "abc123", some "Hallo!", none⟩))).conversationId
      = some "abc123" ∧
    (applyEvents
        (applyEvents (initChat "G")
          (responseEvents
            (.parsed 200
              ⟨some "success", some "abc123", some "Hallo!", none⟩)))
        (responseEvents
          (.parsed 200 ⟨some "success", none, some "ok", none⟩))).conversationId
      = none := by
  decide

/-- C6 amended: once the stored conversation id is non-null it stays
non-null across every interleaving of submissions and deliveries in which
each delivered parsed success response carries a non-null
`conversation_id` (which the wire protocol's success schema prescribes). -/
theorem conversationId_nonnull_preserved (s : SysState)
    (as : List PageAction) (h : s.chat.conversationId ≠ none)
    (hgood : as.all goodDeliver = true) :
    (runActions s as).chat.conversationId ≠ none := by
  induction as generalizing s with
  | nil => exact h
  | cons a rest ih =>
    simp only [List.all_cons, Bool.and_eq_true] at hgood
    refine ih (stepAction s a) ?_ hgood.2
    cases a with
    | submit raw =>
      simpa [stepAction, submitHandler_conversationId] using h
    | deliver resp =>
      show (applyEvents s.chat (responseEvents resp)).conversationId ≠ none
      rw [applyEvents_responseEvents_conversationId]
      cases resp with
      | transportError e => exact h
      | parseError hs e => exact h
      | parsed hs d =>
        by_cases hd : d.status = some "success"
        · simp only [goodDeliver, hd, Bool.not_eq_true'] at hgood
          simp only [hd, if_pos]
          simpa using hgood.1
        · simpa [hd] using h

/-- Witness for C6 amended: from a state with stored id `"abc"` and one
exchange in flight, a protocol-conforming success delivery, a submission
and a transport failure leave the id non-null. -/
theorem conversationId_nonnull_preserved_witness :
    ({ chat :=
        { conversationId := some "abc", messages := [], inputValue := ""
          sentRequests := [], log := [] }
       pending := 1 } : SysState).chat.conversationId ≠ none ∧
    (runActions
        { chat :=
            { conversationId := some "abc", messages := [], inputValue := ""
              sentRequests := [], log := [] }
          pending := 1 }
        [.deliver (.parsed 200 ⟨some "success", some "def", some "x", none⟩),
         .submit "hi",
         .deliver (.transportError "e")]).chat.conversationId ≠ none :=
  ⟨by decide,
   conversationId_nonnull_preserved _ _ (by decide) (by decide)⟩

/-- Along any valid action sequence, the number of typing-indicator nodes
tracks the number of in-flight exchanges. -/
theorem typingCount_eq_pending_aux (as : List PageAction) :
    ∀ s : SysState, typingCount s.chat.messages = s.pending →
      validFrom s.pending as = true →
      typingCount (runActions s as).chat.messages =
        (runActions s as).pending := by
  induction as with
  | nil => exact fun s h _ => h
  | cons a rest ih =>
    intro s h hv
    cases a with
    | submit raw =>
      refine ih (stepAction s (.submit raw)) ?_ ?_
      · show typingCount
            (submitHandler { s.chat with inputValue := raw }).messages = _
        rw [typingCount_submitHandler]
        simp [stepAction, h]
      · simpa [validFrom] using hv
    | deliver resp =>
      simp only [validFrom, Bool.and_eq_true, decide_eq_true_eq] at hv
      refine ih (stepAction s (.deliver resp)) ?_ ?_
      · show typingCount
            (applyEvents s.chat (responseEvents resp)).messages =
          (stepAction s (.deliver resp)).pending
        rw [typingCount_responseEvents, h]
        rfl
      · simpa [stepAction] using hv.2

/-- C7 amended: from a fresh page, along every valid interleaving of
submissions and response arrivals, the number of typing-indicator nodes
equals the number of in-flight exchanges; in particular at most one
indicator exists whenever at most one exchange is in flight. -/
theorem typingCount_eq_pending_inflight (g : String)
    (as : List PageAction) (h : validFrom 0 as = true) :
    typingCount (runActions (initSys g) as).chat.messages =
      (runActions (initSys g) as).pending ∧
    ((runActions (initSys g) as).pending ≤ 1 →
      typingCount (runActions (initSys g) as).chat.messages ≤ 1) := by
  have h0 : typingCount (initSys g).chat.messages = (initSys g).pending := by
    simp [initSys, initChat, typingCount, addBotMessage, addMessage,
      Node.isTyping]
  have heq := typingCount_eq_pending_aux as (initSys g) h0 h
  exact ⟨heq, fun hp => heq ▸ hp⟩

/-- Witness for C7 amended: one submission followed by its (failing)
response is a valid interleaving; afterwards no indicator remains. -/
theorem typingCount_eq_pending_inflight_witness :
    typingCount
        (runActions (initSys "G")
          [.submit "hi", .deliver (.transportError "e")]).chat.messages =
      (runActions (initSys "G")
          [.submit "hi", .deliver (.transportError "e")]).pending :=
  (typingCount_eq_pending_inflight "G"
    [.submit "hi", .deliver (.transportError "e")] (by decide)).1

/-- C7 counterexample: submitting `"b"` while the exchange for `"a"` is
still in flight is a valid interleaving after which the message list holds
two typing-indicator nodes — so "at most one typing-indicator node at every
observable instant, for every interleaving" fails. -/
theorem two_inflight_two_typing_indicators :
    validFrom 0 [PageAction.submit "a", PageAction.submit "b"] = true ∧
    ¬ typingCount
        (runActions (initSys "G")
          [PageAction.submit "a", PageAction.submit "b"]).chat.messages
        ≤ 1 := by
  decide

/-- C10 amended: `hideTypingIndicator` on a list with no typing-indicator
node is the identity, and applying it twice equals applying it once
whenever at most one typing-indicator node is present. -/
theorem hideTyping_idempotent_at_most_one (l : List Node)
    (h : typingCount l ≤ 1) :
    hideTypingIndicator (hideTypingIndicator l) = hideTypingIndicator l ∧
    (typingCount l = 0 → hideTypingIndicator l = l) := by
  refine ⟨?_, hideTypingIndicator_of_count_zero l⟩
  apply hideTypingIndicator_of_count_zero
  rw [typingCount_hideTypingIndicator]
  omega

/-- Witness for C10 amended at the singleton indicator list. -/
theorem hideTyping_idempotent_at_most_one_witness :
    hideTypingIndicator (hideTypingIndicator [Node.typing]) =
      hideTypingIndicator [Node.typing] :=
  (hideTyping_idempotent_at_most_one [Node.typing] (by decide)).1

/-- C10 counterexample: with two typing-indicator nodes present (reachable
by two overlapping submissions), a second `hideTypingIndicator` call
removes a second node, so calling it twice differs from calling it once. -/
theorem hideTyping_not_idempotent_with_two :
    hideTypingIndicator (hideTypingIndicator [Node.typing, Node.typing]) ≠
      hideTypingIndicator [Node.typing, Node.typing] := by
  decide
